import Mathlib

/-!
Verification development for the ESP8266 home-automation firmware.

The definitions below are a shallow embedding of the two firmware variants in
the repository:

  * `src/Code_ESP32_Firebase/Code_ESP32_Firebase.ino` (the "ino" variant):
    global control state, `updateMotorControl`, `updateLEDControl`,
    `processAutomaticControls`, `checkFirebaseControls`, `checkManualSwitches`,
    and the motion part of `readSensors`.
  * `src/unnamed/part_000` (the "part000" variant): `sendNotification`
    (which contains the per-minute window reset) and `readPIR` (the debounced
    PIR handler).

Machine integers (`unsigned long` timestamps, `int` analog readings) are
modelled as `Nat`; timestamps are assumed monotone so unsigned subtraction
`now - before` agrees with truncated `Nat` subtraction.  The `float`
temperature is modelled as `ℚ` (only order comparisons are performed on it).
`motorSpeed` is an `int` that the firmware only ever assigns values in
`[0,100]` (initialised to 50, updated only under the guard
`newSpeed >= 0 && newSpeed <= 100`), so it is modelled as `Nat`; the raw
dashboard value is kept as `Int` and converted under the same guard.
Firebase writes, serial prints and the notification side effects are not part
of the controller state and are modelled separately (`NotifState`).
-/

namespace HomeAutomation

/-- `MAX_MOTOR_PWM` from the ino variant: 80% of 255. -/
def MAX_MOTOR_PWM : Nat := 204

/-- `LDR_THRESHOLD` from both variants. -/
def LDR_THRESHOLD : Nat := 400

/-- `TEMP_THRESHOLD` from both variants. -/
def TEMP_THRESHOLD : ℚ := 33.0

/-- `TEMP_HYSTERESIS` from both variants. -/
def TEMP_HYSTERESIS : ℚ := 2.0

/-- `DEBOUNCE_DELAY` (ms) from the ino variant. -/
def DEBOUNCE_DELAY : Nat := 100

/-- Arduino's integer `map` function, here at `Nat` arguments (the firmware
only calls it with `x` in `[0,100]`, where C `long` division and `Nat`
division agree). -/
def arduinoMap (x inMin inMax outMin outMax : Nat) : Nat :=
  (x - inMin) * (outMax - outMin) / (inMax - inMin) + outMin

/-- The three physical motor lines driven by `updateMotorControl`:
`MOTOR_IN1_PIN`, `MOTOR_IN2_PIN` (direction) and `MOTOR_PWM_PIN` (drive). -/
structure MotorPins where
  in1 : Bool
  in2 : Bool
  pwm : Nat
deriving DecidableEq

/-- The mutable global state of the ino variant that the claims touch:
control states, automatic-policy flags, latest sensor values, physical
outputs, and the switch-debounce bookkeeping. -/
structure SysState where
  motorOn : Bool
  motorsManual : Bool
  motorSpeed : Nat
  motorDirection : String
  led1On : Bool
  led2On : Bool
  ledsManual : Bool
  autoLightEnabled : Bool
  autoMotorEnabled : Bool
  autoLightTriggered : Bool
  autoMotorTriggered : Bool
  ldrValue : Nat
  temperature : ℚ
  motorPins : MotorPins
  led1Pin : Bool
  led2Pin : Bool
  motorSwitchPressed : Bool
  ledsSwitchPressed : Bool
  lastMotorSwitchTime : Nat
  lastLedsSwitchTime : Nat
deriving DecidableEq

/-- `updateMotorControl()` from the ino variant: when the motor is on, assert
exactly one direction line according to `motorDirection` and drive the PWM pin
with `map(motorSpeed, 0, 100, 0, MAX_MOTOR_PWM)`; when off, deassert both
direction lines and zero the PWM. -/
def updateMotorControl (s : SysState) : SysState :=
  if s.motorOn then
    { s with motorPins :=
        { in1 := s.motorDirection == "forward"
          in2 := !(s.motorDirection == "forward")
          pwm := arduinoMap s.motorSpeed 0 100 0 MAX_MOTOR_PWM } }
  else
    { s with motorPins := { in1 := false, in2 := false, pwm := 0 } }

/-- `updateLEDControl()` from the ino variant: copy the logical LED states to
the two LED pins. -/
def updateLEDControl (s : SysState) : SysState :=
  { s with led1Pin := s.led1On, led2Pin := s.led2On }

theorem updateMotorControl_frame (s : SysState) :
    (updateMotorControl s).motorOn = s.motorOn
    ∧ (updateMotorControl s).motorsManual = s.motorsManual
    ∧ (updateMotorControl s).motorSpeed = s.motorSpeed
    ∧ (updateMotorControl s).motorDirection = s.motorDirection
    ∧ (updateMotorControl s).led1On = s.led1On
    ∧ (updateMotorControl s).led2On = s.led2On
    ∧ (updateMotorControl s).ledsManual = s.ledsManual
    ∧ (updateMotorControl s).autoLightTriggered = s.autoLightTriggered
    ∧ (updateMotorControl s).autoMotorTriggered = s.autoMotorTriggered
    ∧ (updateMotorControl s).autoLightEnabled = s.autoLightEnabled
    ∧ (updateMotorControl s).autoMotorEnabled = s.autoMotorEnabled
    ∧ (updateMotorControl s).led1Pin = s.led1Pin
    ∧ (updateMotorControl s).led2Pin = s.led2Pin
    ∧ (updateMotorControl s).ledsSwitchPressed = s.ledsSwitchPressed
    ∧ (updateMotorControl s).lastLedsSwitchTime = s.lastLedsSwitchTime := by
  unfold updateMotorControl
  split <;> simp

theorem updateLEDControl_frame (s : SysState) :
    (updateLEDControl s).motorOn = s.motorOn
    ∧ (updateLEDControl s).motorsManual = s.motorsManual
    ∧ (updateLEDControl s).motorSpeed = s.motorSpeed
    ∧ (updateLEDControl s).motorDirection = s.motorDirection
    ∧ (updateLEDControl s).led1On = s.led1On
    ∧ (updateLEDControl s).led2On = s.led2On
    ∧ (updateLEDControl s).ledsManual = s.ledsManual
    ∧ (updateLEDControl s).autoLightTriggered = s.autoLightTriggered
    ∧ (updateLEDControl s).autoMotorTriggered = s.autoMotorTriggered
    ∧ (updateLEDControl s).motorPins = s.motorPins := by
  unfold updateLEDControl
  simp

/-- A representative concrete state (the ino variant's initial global values,
with outputs as initialised in `setup()`). -/
def initState : SysState :=
  { motorOn := false
    motorsManual := false
    motorSpeed := 50
    motorDirection := "forward"
    led1On := false
    led2On := false
    ledsManual := false
    autoLightEnabled := true
    autoMotorEnabled := true
    autoLightTriggered := false
    autoMotorTriggered := false
    ldrValue := 0
    temperature := 0
    motorPins := { in1 := false, in2 := false, pwm := 0 }
    led1Pin := false
    led2Pin := false
    motorSwitchPressed := false
    ledsSwitchPressed := false
    lastMotorSwitchTime := 0
    lastLedsSwitchTime := 0 }

/-- C5: after every call to the motor actuator controller the two direction
lines IN1 and IN2 are never both asserted, and when the motor is commanded
off the same call deasserts both direction lines and zeroes the PWM drive. -/
theorem motor_direction_lines_exclusive (s : SysState) :
    (¬((updateMotorControl s).motorPins.in1 = true
        ∧ (updateMotorControl s).motorPins.in2 = true))
    ∧ (s.motorOn = false →
        (updateMotorControl s).motorPins = { in1 := false, in2 := false, pwm := 0 }) := by
  unfold updateMotorControl
  constructor
  · split <;> simp
  · intro h
    rw [if_neg]
    simp [h]

theorem motor_direction_lines_exclusive_witness :
    (¬((updateMotorControl initState).motorPins.in1 = true
        ∧ (updateMotorControl initState).motorPins.in2 = true))
    ∧ (initState.motorOn = false →
        (updateMotorControl initState).motorPins = { in1 := false, in2 := false, pwm := 0 }) :=
  motor_direction_lines_exclusive initState

/-- C4 (amended): for every requested speed in `[0,100]` the PWM drive never
exceeds the 204 ceiling; speed 100 with the motor on yields exactly 204;
speed 0 yields zero drive; both direction lines are deasserted when the motor
is off (not merely when speed is 0). -/
theorem motor_pwm_clamp (s : SysState) (h : s.motorSpeed ≤ 100) :
    (updateMotorControl s).motorPins.pwm ≤ MAX_MOTOR_PWM
    ∧ (s.motorOn = true → s.motorSpeed = 100 →
        (updateMotorControl s).motorPins.pwm = MAX_MOTOR_PWM)
    ∧ (s.motorSpeed = 0 → (updateMotorControl s).motorPins.pwm = 0)
    ∧ (s.motorOn = false →
        (updateMotorControl s).motorPins = { in1 := false, in2 := false, pwm := 0 }) := by
  unfold updateMotorControl
  refine ⟨?_, ?_, ?_, ?_⟩
  · split
    · simp only [arduinoMap, MAX_MOTOR_PWM]
      calc (s.motorSpeed - 0) * (204 - 0) / (100 - 0) + 0
          ≤ 100 * 204 / 100 := by
            simp only [Nat.sub_zero, Nat.add_zero]
            exact Nat.div_le_div_right (Nat.mul_le_mul_right _ h)
        _ = 204 := by norm_num
    · simp
  · intro hOn h100
    rw [if_pos hOn]
    simp [arduinoMap, h100, MAX_MOTOR_PWM]
  · intro h0
    split <;> simp [arduinoMap, h0]
  · intro hOff
    rw [if_neg]
    simp [hOff]

theorem motor_pwm_clamp_witness :
    ({ initState with motorOn := true, motorSpeed := 100 } : SysState).motorSpeed ≤ 100
    ∧ ((updateMotorControl { initState with motorOn := true, motorSpeed := 100 }).motorPins.pwm
          ≤ MAX_MOTOR_PWM
      ∧ (({ initState with motorOn := true, motorSpeed := 100 } : SysState).motorOn = true →
          ({ initState with motorOn := true, motorSpeed := 100 } : SysState).motorSpeed = 100 →
          (updateMotorControl { initState with motorOn := true, motorSpeed := 100 }).motorPins.pwm
            = MAX_MOTOR_PWM)
      ∧ (({ initState with motorOn := true, motorSpeed := 100 } : SysState).motorSpeed = 0 →
          (updateMotorControl
              { initState with motorOn := true, motorSpeed := 100 }).motorPins.pwm = 0)
      ∧ (({ initState with motorOn := true, motorSpeed := 100 } : SysState).motorOn = false →
          (updateMotorControl { initState with motorOn := true, motorSpeed := 100 }).motorPins
            = { in1 := false, in2 := false, pwm := 0 })) :=
  ⟨by decide, motor_pwm_clamp { initState with motorOn := true, motorSpeed := 100 } (by decide)⟩

/-- C4 counterexample: with the motor on, direction forward and requested
speed 0, the controller produces zero drive but keeps the IN1 direction line
asserted — refuting "requesting speed=0 yields zero drive magnitude with both
direction lines deasserted". -/
theorem motor_speed_zero_line_asserted :
    (updateMotorControl
        { initState with motorOn := true, motorSpeed := 0 }).motorPins.pwm = 0
    ∧ (updateMotorControl
        { initState with motorOn := true, motorSpeed := 0 }).motorPins.in1 = true := by
  decide

/-- The "Automatic lighting based on LDR" section of
`processAutomaticControls()` (ino variant): hysteresis on the
`autoLightTriggered` flag with ON threshold `LDR_THRESHOLD` and release
threshold `LDR_THRESHOLD + 50`.  Each branch mutates the desired state, then
applies it to the pins via `updateLEDControl` (the Firebase echo and the
notification are side effects modelled elsewhere). -/
def autoLightBlock (s : SysState) : SysState :=
  if s.autoLightEnabled = true ∧ s.ledsManual = false then
    if s.ldrValue < LDR_THRESHOLD ∧ s.autoLightTriggered = false then
      updateLEDControl { s with led1On := true, led2On := true, autoLightTriggered := true }
    else if LDR_THRESHOLD + 50 < s.ldrValue ∧ s.autoLightTriggered = true then
      updateLEDControl { s with led1On := false, led2On := false, autoLightTriggered := false }
    else s
  else s

/-- The "Automatic motor control based on temperature" section of
`processAutomaticControls()` (ino variant): hysteresis on the
`autoMotorTriggered` flag with ON threshold `TEMP_THRESHOLD` and release
threshold `TEMP_THRESHOLD - TEMP_HYSTERESIS`. -/
def autoMotorBlock (s : SysState) : SysState :=
  if s.autoMotorEnabled = true ∧ s.motorsManual = false then
    if TEMP_THRESHOLD ≤ s.temperature ∧ s.autoMotorTriggered = false then
      updateMotorControl { s with motorOn := true, autoMotorTriggered := true }
    else if s.temperature < TEMP_THRESHOLD - TEMP_HYSTERESIS ∧ s.autoMotorTriggered = true then
      updateMotorControl { s with motorOn := false, autoMotorTriggered := false }
    else s
  else s

/-- `processAutomaticControls()` from the ino variant: the light section runs
first, then the motor section. -/
def processAutomaticControls (s : SysState) : SysState :=
  autoMotorBlock (autoLightBlock s)

/-- Feeding one light reading to the automatic policy: `readSensors()` stores
the LDR sample in `ldrValue`, and the loop then runs
`processAutomaticControls()`. -/
def feedLux (s : SysState) (lux : Nat) : SysState :=
  processAutomaticControls { s with ldrValue := lux }

/-- Feeding one temperature reading to the automatic policy: `readDHTSensor()`
stores the sample in `temperature`, and the loop then runs
`processAutomaticControls()`. -/
def feedTemperature (s : SysState) (t : ℚ) : SysState :=
  processAutomaticControls { s with temperature := t }

theorem autoLightBlock_motor_frame (s : SysState) :
    (autoLightBlock s).motorOn = s.motorOn
    ∧ (autoLightBlock s).motorsManual = s.motorsManual
    ∧ (autoLightBlock s).motorPins = s.motorPins
    ∧ (autoLightBlock s).motorSpeed = s.motorSpeed
    ∧ (autoLightBlock s).motorDirection = s.motorDirection
    ∧ (autoLightBlock s).autoMotorTriggered = s.autoMotorTriggered
    ∧ (autoLightBlock s).autoMotorEnabled = s.autoMotorEnabled
    ∧ (autoLightBlock s).ledsManual = s.ledsManual
    ∧ (autoLightBlock s).autoLightEnabled = s.autoLightEnabled
    ∧ (autoLightBlock s).temperature = s.temperature := by
  unfold autoLightBlock updateLEDControl
  split_ifs <;> simp

theorem autoMotorBlock_led_frame (s : SysState) :
    (autoMotorBlock s).led1On = s.led1On
    ∧ (autoMotorBlock s).led2On = s.led2On
    ∧ (autoMotorBlock s).led1Pin = s.led1Pin
    ∧ (autoMotorBlock s).led2Pin = s.led2Pin
    ∧ (autoMotorBlock s).autoLightTriggered = s.autoLightTriggered
    ∧ (autoMotorBlock s).ledsManual = s.ledsManual
    ∧ (autoMotorBlock s).autoLightEnabled = s.autoLightEnabled
    ∧ (autoMotorBlock s).motorsManual = s.motorsManual
    ∧ (autoMotorBlock s).autoMotorEnabled = s.autoMotorEnabled
    ∧ (autoMotorBlock s).motorSpeed = s.motorSpeed
    ∧ (autoMotorBlock s).motorDirection = s.motorDirection := by
  unfold autoMotorBlock updateMotorControl
  split_ifs <;> simp

theorem autoLightBlock_id_of_dead (s : SysState)
    (htrig : s.autoLightTriggered = true) (hhi : s.ldrValue ≤ LDR_THRESHOLD + 50) :
    autoLightBlock s = s := by
  unfold autoLightBlock
  split_ifs with hEn hOn hOff
  · exact absurd hOn.2 (by simp [htrig])
  · exact absurd hOff.1 (Nat.not_lt.mpr hhi)
  · rfl
  · rfl

theorem autoLightBlock_id_of_manual (s : SysState) (h : s.ledsManual = true) :
    autoLightBlock s = s := by
  unfold autoLightBlock
  rw [if_neg]
  simp [h]

theorem autoMotorBlock_id_of_dead (s : SysState)
    (htrig : s.autoMotorTriggered = true)
    (hlo : TEMP_THRESHOLD - TEMP_HYSTERESIS ≤ s.temperature) :
    autoMotorBlock s = s := by
  unfold autoMotorBlock
  split_ifs with hEn hOn hOff
  · exact absurd hOn.2 (by simp [htrig])
  · exact absurd hOff.1 (not_lt.mpr hlo)
  · rfl
  · rfl

theorem autoMotorBlock_id_of_untriggered_low (s : SysState)
    (htrig : s.autoMotorTriggered = false) (hlt : s.temperature < TEMP_THRESHOLD) :
    autoMotorBlock s = s := by
  unfold autoMotorBlock
  split_ifs with hEn hOn hOff
  · exact absurd hOn.1 (not_le.mpr hlt)
  · exact absurd hOff.2 (by simp [htrig])
  · rfl
  · rfl

theorem autoMotorBlock_id_of_manual (s : SysState) (h : s.motorsManual = true) :
    autoMotorBlock s = s := by
  unfold autoMotorBlock
  rw [if_neg]
  simp [h]

/-- Invariant holding after the automatic light policy has triggered ON:
auto mode, lights and pins on, hysteresis flag set. -/
def LightOnInv (t : SysState) : Prop :=
  t.ledsManual = false ∧ t.autoLightEnabled = true ∧ t.autoLightTriggered = true
    ∧ t.led1On = true ∧ t.led2On = true ∧ t.led1Pin = true ∧ t.led2Pin = true

theorem feedLux_triggers_on (s : SysState) (lux : Nat)
    (hman : s.ledsManual = false) (hen : s.autoLightEnabled = true)
    (htrig : s.autoLightTriggered = false) (hlt : lux < LDR_THRESHOLD) :
    LightOnInv (feedLux s lux) := by
  unfold feedLux processAutomaticControls
  have hA : autoLightBlock { s with ldrValue := lux }
      = updateLEDControl
          { s with ldrValue := lux, led1On := true, led2On := true, autoLightTriggered := true } := by
    unfold autoLightBlock
    rw [if_pos (by simp [hen, hman]), if_pos (by simp [hlt, htrig])]
  rw [hA]
  obtain ⟨f1, f2, f3, f4, f5, f6, f7, -⟩ := autoMotorBlock_led_frame
    (updateLEDControl
      { s with ldrValue := lux, led1On := true, led2On := true, autoLightTriggered := true })
  unfold LightOnInv
  rw [f1, f2, f3, f4, f5, f6, f7]
  simp [updateLEDControl, hman, hen]

theorem feedLux_keeps_on (t : SysState) (x : Nat)
    (hI : LightOnInv t) (hhi : x ≤ LDR_THRESHOLD + 50) :
    LightOnInv (feedLux t x) := by
  unfold feedLux processAutomaticControls
  have hid : autoLightBlock { t with ldrValue := x } = { t with ldrValue := x } :=
    autoLightBlock_id_of_dead _ (by simpa using hI.2.2.1) (by simpa using hhi)
  rw [hid]
  obtain ⟨f1, f2, f3, f4, f5, f6, f7, -⟩ := autoMotorBlock_led_frame { t with ldrValue := x }
  unfold LightOnInv at hI ⊢
  rw [f1, f2, f3, f4, f5, f6, f7]
  simp only [SysState.mk.injEq]
  exact ⟨hI.1, hI.2.1, hI.2.2.1, hI.2.2.2.1, hI.2.2.2.2.1, hI.2.2.2.2.2.1, hI.2.2.2.2.2.2⟩

theorem foldl_feedLux_keeps_on (ys : List Nat) (t : SysState)
    (h : ∀ x ∈ ys, x ≤ LDR_THRESHOLD + 50) (hI : LightOnInv t) :
    LightOnInv (ys.foldl feedLux t) := by
  induction ys generalizing t with
  | nil => exact hI
  | cons y ys ih =>
    rw [List.foldl_cons]
    exact ih _ (fun x hx => h x (List.mem_cons_of_mem y hx))
      (feedLux_keeps_on t y hI (h y (List.mem_cons_self y ys)))

theorem feedLux_triggers_off (t : SysState) (x : Nat)
    (hI : LightOnInv t) (hgt : LDR_THRESHOLD + 50 < x) :
    (feedLux t x).led1On = false ∧ (feedLux t x).led2On = false
    ∧ (feedLux t x).autoLightTriggered = false
    ∧ (feedLux t x).led1Pin = false ∧ (feedLux t x).led2Pin = false := by
  obtain ⟨hman, hen, htrig, -⟩ := hI
  unfold feedLux processAutomaticControls
  have hA : autoLightBlock { t with ldrValue := x }
      = updateLEDControl
          { t with ldrValue := x, led1On := false, led2On := false,
                   autoLightTriggered := false } := by
    unfold autoLightBlock
    rw [if_pos (by simp [hen, hman]),
        if_neg (by simp [Nat.not_lt.mpr (Nat.le_of_lt (Nat.lt_of_le_of_lt (Nat.le_add_right _ _) hgt))]),
        if_pos (by simp [hgt, htrig])]
  rw [hA]
  obtain ⟨f1, f2, f3, f4, f5, -⟩ := autoMotorBlock_led_frame
    (updateLEDControl
      { t with ldrValue := x, led1On := false, led2On := false, autoLightTriggered := false })
  rw [f1, f2, f3, f4, f5]
  simp [updateLEDControl]

/-- C2: with `onThreshold = 400` and margin 50, starting untriggered in Auto
mode with auto-light enabled and LEDs off, a lux reading of 399 switches both
LEDs and their pins ON and sets the hysteresis flag; along any subsequent
sequence of readings in `[350, 450]` the LED states, pins and the flag stay
exactly as the ON transition left them (no further transition at any prefix);
a subsequent reading of 451 then switches both LEDs OFF and clears the flag. -/
theorem auto_light_hysteresis (s : SysState) (xs : List Nat)
    (hman : s.ledsManual = false) (hen : s.autoLightEnabled = true)
    (htrig : s.autoLightTriggered = false)
    (_hled1 : s.led1On = false) (_hled2 : s.led2On = false)
    (hmid : ∀ x ∈ xs, 350 ≤ x ∧ x ≤ 450) :
    ((feedLux s 399).led1On = true ∧ (feedLux s 399).led2On = true
      ∧ (feedLux s 399).autoLightTriggered = true
      ∧ (feedLux s 399).led1Pin = true ∧ (feedLux s 399).led2Pin = true)
    ∧ (∀ ys zs, xs = ys ++ zs →
        (ys.foldl feedLux (feedLux s 399)).led1On = true
        ∧ (ys.foldl feedLux (feedLux s 399)).led2On = true
        ∧ (ys.foldl feedLux (feedLux s 399)).autoLightTriggered = true
        ∧ (ys.foldl feedLux (feedLux s 399)).led1Pin = true
        ∧ (ys.foldl feedLux (feedLux s 399)).led2Pin = true)
    ∧ ((feedLux (xs.foldl feedLux (feedLux s 399)) 451).led1On = false
      ∧ (feedLux (xs.foldl feedLux (feedLux s 399)) 451).led2On = false
      ∧ (feedLux (xs.foldl feedLux (feedLux s 399)) 451).autoLightTriggered = false
      ∧ (feedLux (xs.foldl feedLux (feedLux s 399)) 451).led1Pin = false
      ∧ (feedLux (xs.foldl feedLux (feedLux s 399)) 451).led2Pin = false) := by
  have hOn : LightOnInv (feedLux s 399) :=
    feedLux_triggers_on s 399 hman hen htrig (by norm_num [LDR_THRESHOLD])
  refine ⟨⟨hOn.2.2.2.1, hOn.2.2.2.2.1, hOn.2.2.1, hOn.2.2.2.2.2.1, hOn.2.2.2.2.2.2⟩, ?_, ?_⟩
  · intro ys zs hsplit
    have hys : ∀ x ∈ ys, x ≤ LDR_THRESHOLD + 50 := by
      intro x hx
      have : x ∈ xs := hsplit ▸ List.mem_append_left zs hx
      simpa [LDR_THRESHOLD] using (hmid x this).2
    have hInv := foldl_feedLux_keeps_on ys (feedLux s 399) hys hOn
    exact ⟨hInv.2.2.2.1, hInv.2.2.2.2.1, hInv.2.2.1, hInv.2.2.2.2.2.1, hInv.2.2.2.2.2.2⟩
  · have hxs : ∀ x ∈ xs, x ≤ LDR_THRESHOLD + 50 := by
      intro x hx
      simpa [LDR_THRESHOLD] using (hmid x hx).2
    have hInv := foldl_feedLux_keeps_on xs (feedLux s 399) hxs hOn
    exact feedLux_triggers_off _ 451 hInv (by norm_num [LDR_THRESHOLD])

theorem auto_light_hysteresis_witness :
    ((feedLux initState 399).led1On = true ∧ (feedLux initState 399).led2On = true
      ∧ (feedLux initState 399).autoLightTriggered = true
      ∧ (feedLux initState 399).led1Pin = true ∧ (feedLux initState 399).led2Pin = true)
    ∧ (∀ ys zs, [350, 450] = ys ++ zs →
        (ys.foldl feedLux (feedLux initState 399)).led1On = true
        ∧ (ys.foldl feedLux (feedLux initState 399)).led2On = true
        ∧ (ys.foldl feedLux (feedLux initState 399)).autoLightTriggered = true
        ∧ (ys.foldl feedLux (feedLux initState 399)).led1Pin = true
        ∧ (ys.foldl feedLux (feedLux initState 399)).led2Pin = true)
    ∧ ((feedLux ([350, 450].foldl feedLux (feedLux initState 399)) 451).led1On = false
      ∧ (feedLux ([350, 450].foldl feedLux (feedLux initState 399)) 451).led2On = false
      ∧ (feedLux ([350, 450].foldl feedLux (feedLux initState 399)) 451).autoLightTriggered = false
      ∧ (feedLux ([350, 450].foldl feedLux (feedLux initState 399)) 451).led1Pin = false
      ∧ (feedLux ([350, 450].foldl feedLux (feedLux initState 399)) 451).led2Pin = false) :=
  auto_light_hysteresis initState [350, 450] (by decide) (by decide) (by decide)
    (by decide) (by decide) (by decide)

/-- Invariant before the automatic motor policy has triggered: auto mode,
motor off, hysteresis flag clear. -/
def MotorIdleInv (t : SysState) : Prop :=
  t.motorsManual = false ∧ t.autoMotorEnabled = true
    ∧ t.autoMotorTriggered = false ∧ t.motorOn = false

/-- Invariant after the automatic motor policy has triggered ON. -/
def MotorOnInv (t : SysState) : Prop :=
  t.motorsManual = false ∧ t.autoMotorEnabled = true
    ∧ t.autoMotorTriggered = true ∧ t.motorOn = true

theorem feedTemperature_keeps_idle (t : SysState) (x : ℚ)
    (hI : MotorIdleInv t) (hlt : x < TEMP_THRESHOLD) :
    MotorIdleInv (feedTemperature t x) := by
  obtain ⟨hman, hen, htrig, hoff⟩ := hI
  have hnge : ¬TEMP_THRESHOLD ≤ x := not_le.mpr hlt
  unfold feedTemperature processAutomaticControls autoMotorBlock autoLightBlock
    updateMotorControl updateLEDControl MotorIdleInv
  split_ifs <;> simp_all

theorem foldl_feedTemperature_keeps_idle (ys : List ℚ) (t : SysState)
    (h : ∀ x ∈ ys, x < TEMP_THRESHOLD) (hI : MotorIdleInv t) :
    MotorIdleInv (ys.foldl feedTemperature t) := by
  induction ys generalizing t with
  | nil => exact hI
  | cons y ys ih =>
    rw [List.foldl_cons]
    exact ih _ (fun x hx => h x (List.mem_cons_of_mem y hx))
      (feedTemperature_keeps_idle t y hI (h y (List.mem_cons_self y ys)))

theorem feedTemperature_triggers_on (t : SysState) (x : ℚ)
    (hI : MotorIdleInv t) (hge : TEMP_THRESHOLD ≤ x) :
    MotorOnInv (feedTemperature t x) := by
  obtain ⟨hman, hen, htrig, -⟩ := hI
  unfold feedTemperature processAutomaticControls autoMotorBlock autoLightBlock
    updateMotorControl updateLEDControl MotorOnInv
  split_ifs <;> simp_all

theorem feedTemperature_dead_zone (t : SysState) (x : ℚ)
    (hI : MotorOnInv t) (hlo : TEMP_THRESHOLD - TEMP_HYSTERESIS ≤ x) :
    MotorOnInv (feedTemperature t x)
    ∧ (feedTemperature t x).motorPins = t.motorPins := by
  obtain ⟨hman, hen, htrig, hon⟩ := hI
  have hnlt : ¬x < TEMP_THRESHOLD - TEMP_HYSTERESIS := not_lt.mpr hlo
  unfold feedTemperature processAutomaticControls autoMotorBlock autoLightBlock
    updateMotorControl updateLEDControl MotorOnInv
  split_ifs <;> simp_all

theorem feedTemperature_triggers_off (t : SysState) (x : ℚ)
    (hI : MotorOnInv t) (hlt : x < TEMP_THRESHOLD - TEMP_HYSTERESIS) :
    (feedTemperature t x).motorOn = false
    ∧ (feedTemperature t x).autoMotorTriggered = false
    ∧ (feedTemperature t x).motorPins = { in1 := false, in2 := false, pwm := 0 } := by
  obtain ⟨hman, hen, htrig, hon⟩ := hI
  have hnge : ¬TEMP_THRESHOLD ≤ x := by
    refine not_le.mpr (lt_of_lt_of_le hlt ?_)
    norm_num [TEMP_THRESHOLD, TEMP_HYSTERESIS]
  unfold feedTemperature processAutomaticControls autoMotorBlock autoLightBlock
    updateMotorControl updateLEDControl
  split_ifs <;> simp_all

/-- C7: with threshold 33.0 and hysteresis 2.0, in Auto mode with auto-motor
enabled and starting untriggered with the motor off, any temperature sequence
rising from 30.0 while below the threshold leaves the motor off at every
prefix; the first reading of 33.0 turns the motor ON (flag set) exactly then;
a subsequent 31.5 changes neither the motor state nor the physical pins; a
subsequent 30.9 (below 33.0 - 2.0) turns the motor OFF and zeroes the drive. -/
theorem auto_motor_temperature_hysteresis (s : SysState) (xs : List ℚ)
    (hman : s.motorsManual = false) (hen : s.autoMotorEnabled = true)
    (htrig : s.autoMotorTriggered = false) (hoff : s.motorOn = false)
    (hmid : ∀ x ∈ xs, 30 ≤ x ∧ x < 33) :
    (∀ ys zs, xs = ys ++ zs →
        (ys.foldl feedTemperature s).motorOn = false
        ∧ (ys.foldl feedTemperature s).autoMotorTriggered = false)
    ∧ ((feedTemperature (xs.foldl feedTemperature s) 33).motorOn = true
      ∧ (feedTemperature (xs.foldl feedTemperature s) 33).autoMotorTriggered = true)
    ∧ ((feedTemperature (feedTemperature (xs.foldl feedTemperature s) 33) 31.5).motorOn = true
      ∧ (feedTemperature (feedTemperature (xs.foldl feedTemperature s) 33) 31.5).autoMotorTriggered
          = true
      ∧ (feedTemperature (feedTemperature (xs.foldl feedTemperature s) 33) 31.5).motorPins
          = (feedTemperature (xs.foldl feedTemperature s) 33).motorPins)
    ∧ ((feedTemperature
          (feedTemperature (feedTemperature (xs.foldl feedTemperature s) 33) 31.5)
          30.9).motorOn = false
      ∧ (feedTemperature
          (feedTemperature (feedTemperature (xs.foldl feedTemperature s) 33) 31.5)
          30.9).autoMotorTriggered = false
      ∧ (feedTemperature
          (feedTemperature (feedTemperature (xs.foldl feedTemperature s) 33) 31.5)
          30.9).motorPins = { in1 := false, in2 := false, pwm := 0 }) := by
  have hI0 : MotorIdleInv s := ⟨hman, hen, htrig, hoff⟩
  have h33 : TEMP_THRESHOLD = 33 := by norm_num [TEMP_THRESHOLD]
  have hxs : ∀ x ∈ xs, x < TEMP_THRESHOLD := by
    intro x hx
    rw [h33]
    exact (hmid x hx).2
  have hIdle := foldl_feedTemperature_keeps_idle xs s hxs hI0
  have hOn : MotorOnInv (feedTemperature (xs.foldl feedTemperature s) 33) :=
    feedTemperature_triggers_on _ 33 hIdle (by norm_num [TEMP_THRESHOLD])
  have hMid := feedTemperature_dead_zone _ 31.5 hOn
    (by norm_num [TEMP_THRESHOLD, TEMP_HYSTERESIS])
  have hOff := feedTemperature_triggers_off _ 30.9 hMid.1
    (by norm_num [TEMP_THRESHOLD, TEMP_HYSTERESIS])
  refine ⟨?_, ⟨hOn.2.2.2, hOn.2.2.1⟩, ⟨hMid.1.2.2.2, hMid.1.2.2.1, hMid.2⟩, hOff⟩
  intro ys zs hsplit
  have hys : ∀ x ∈ ys, x < TEMP_THRESHOLD := by
    intro x hx
    exact hxs x (hsplit ▸ List.mem_append_left zs hx)
  have h := foldl_feedTemperature_keeps_idle ys s hys hI0
  exact ⟨h.2.2.2, h.2.2.1⟩

theorem auto_motor_temperature_hysteresis_witness :
    (∀ ys zs, ([30, 31.5, 32.2] : List ℚ) = ys ++ zs →
        (ys.foldl feedTemperature initState).motorOn = false
        ∧ (ys.foldl feedTemperature initState).autoMotorTriggered = false)
    ∧ ((feedTemperature ([30, 31.5, 32.2].foldl feedTemperature initState) 33).motorOn = true
      ∧ (feedTemperature
          ([30, 31.5, 32.2].foldl feedTemperature initState) 33).autoMotorTriggered = true)
    ∧ ((feedTemperature
          (feedTemperature ([30, 31.5, 32.2].foldl feedTemperature initState) 33)
          31.5).motorOn = true
      ∧ (feedTemperature
          (feedTemperature ([30, 31.5, 32.2].foldl feedTemperature initState) 33)
          31.5).autoMotorTriggered = true
      ∧ (feedTemperature
          (feedTemperature ([30, 31.5, 32.2].foldl feedTemperature initState) 33)
          31.5).motorPins
        = (feedTemperature ([30, 31.5, 32.2].foldl feedTemperature initState) 33).motorPins)
    ∧ ((feedTemperature
          (feedTemperature
            (feedTemperature ([30, 31.5, 32.2].foldl feedTemperature initState) 33) 31.5)
          30.9).motorOn = false
      ∧ (feedTemperature
          (feedTemperature
            (feedTemperature ([30, 31.5, 32.2].foldl feedTemperature initState) 33) 31.5)
          30.9).autoMotorTriggered = false
      ∧ (feedTemperature
          (feedTemperature
            (feedTemperature ([30, 31.5, 32.2].foldl feedTemperature initState) 33) 31.5)
          30.9).motorPins = { in1 := false, in2 := false, pwm := 0 }) :=
  auto_motor_temperature_hysteresis initState [30, 31.5, 32.2] (by decide) (by decide)
    (by decide) (by decide)
    (by
      intro x hx
      simp only [List.mem_cons, List.not_mem_nil, or_false] at hx
      rcases hx with h | h | h <;> rw [h] <;> norm_num)

/-- One successful poll of the remote control paths, as read by
`checkFirebaseControls()`: `some v` models `Firebase.get...` returning true
with value `v`, `none` models a failed read (the firmware then keeps the
prior local value).  The dashboard speed is a raw `Int` that the firmware
validates against `[0,100]`. -/
structure RemoteSnapshot where
  motorOnValue : Option Bool
  motorSpeedValue : Option Int
  motorDirectionValue : Option String
  motorAutoEnabledValue : Option Bool
  led1OnValue : Option Bool
  led2OnValue : Option Bool
  led1AutoEnabledValue : Option Bool

/-- The `/controls/motor/on` block of `checkFirebaseControls()`: applied only
when the value differs from the local state and `motorsManual` is clear. -/
def fbMotorOnBlock (s : SysState) (r : RemoteSnapshot) : SysState :=
  match r.motorOnValue with
  | some newMotorOn =>
    if newMotorOn ≠ s.motorOn ∧ s.motorsManual = false then
      updateMotorControl { s with motorOn := newMotorOn }
    else s
  | none => s

/-- The `/controls/motor/speed` block of `checkFirebaseControls()`: validated
against `[0,100]` but applied with no check of `motorsManual`; the pins are
rewritten when the motor is currently on. -/
def fbMotorSpeedBlock (s : SysState) (r : RemoteSnapshot) : SysState :=
  match r.motorSpeedValue with
  | some newSpeed =>
    if newSpeed ≠ (s.motorSpeed : Int) ∧ 0 ≤ newSpeed ∧ newSpeed ≤ 100 then
      let t : SysState := { s with motorSpeed := newSpeed.toNat }
      if t.motorOn then updateMotorControl t else t
    else s
  | none => s

/-- The `/controls/motor/direction` block of `checkFirebaseControls()`:
validated against the two direction strings but applied with no check of
`motorsManual`. -/
def fbMotorDirectionBlock (s : SysState) (r : RemoteSnapshot) : SysState :=
  match r.motorDirectionValue with
  | some newDirection =>
    if newDirection ≠ s.motorDirection
        ∧ (newDirection = "forward" ∨ newDirection = "reverse") then
      let t : SysState := { s with motorDirection := newDirection }
      if t.motorOn then updateMotorControl t else t
    else s
  | none => s

/-- The `/controls/motor/auto_enabled` block of `checkFirebaseControls()`. -/
def fbMotorAutoBlock (s : SysState) (r : RemoteSnapshot) : SysState :=
  match r.motorAutoEnabledValue with
  | some v => { s with autoMotorEnabled := v }
  | none => s

/-- The `/controls/led1/on` block of `checkFirebaseControls()`. -/
def fbLed1Block (s : SysState) (r : RemoteSnapshot) : SysState :=
  match r.led1OnValue with
  | some newLed1On =>
    if newLed1On ≠ s.led1On ∧ s.ledsManual = false then
      updateLEDControl { s with led1On := newLed1On }
    else s
  | none => s

/-- The `/controls/led2/on` block of `checkFirebaseControls()`. -/
def fbLed2Block (s : SysState) (r : RemoteSnapshot) : SysState :=
  match r.led2OnValue with
  | some newLed2On =>
    if newLed2On ≠ s.led2On ∧ s.ledsManual = false then
      updateLEDControl { s with led2On := newLed2On }
    else s
  | none => s

/-- The `/controls/led1/auto_enabled` block of `checkFirebaseControls()`. -/
def fbLightAutoBlock (s : SysState) (r : RemoteSnapshot) : SysState :=
  match r.led1AutoEnabledValue with
  | some v => { s with autoLightEnabled := v }
  | none => s

/-- `checkFirebaseControls()` from the ino variant: the seven control reads
in source order (the 1-second poll throttle selects which loop iterations
execute this body; one call here models one accepted poll). -/
def checkFirebaseControls (s : SysState) (r : RemoteSnapshot) : SysState :=
  fbLightAutoBlock
    (fbLed2Block
      (fbLed1Block
        (fbMotorAutoBlock
          (fbMotorDirectionBlock (fbMotorSpeedBlock (fbMotorOnBlock s r) r) r) r) r) r) r

theorem fbMotorOnBlock_of_manual (s : SysState) (r : RemoteSnapshot)
    (hm : s.motorsManual = true) : fbMotorOnBlock s r = s := by
  unfold fbMotorOnBlock
  cases r.motorOnValue with
  | none => rfl
  | some v =>
    dsimp only
    rw [if_neg]
    simp [hm]

theorem fbMotorSpeedBlock_of_none (s : SysState) (r : RemoteSnapshot)
    (h : r.motorSpeedValue = none) : fbMotorSpeedBlock s r = s := by
  unfold fbMotorSpeedBlock
  rw [h]

theorem fbMotorDirectionBlock_of_none (s : SysState) (r : RemoteSnapshot)
    (h : r.motorDirectionValue = none) : fbMotorDirectionBlock s r = s := by
  unfold fbMotorDirectionBlock
  rw [h]

theorem fbLed1Block_of_manual (s : SysState) (r : RemoteSnapshot)
    (hm : s.ledsManual = true) : fbLed1Block s r = s := by
  unfold fbLed1Block
  cases r.led1OnValue with
  | none => rfl
  | some v =>
    dsimp only
    rw [if_neg]
    simp [hm]

theorem fbLed2Block_of_manual (s : SysState) (r : RemoteSnapshot)
    (hm : s.ledsManual = true) : fbLed2Block s r = s := by
  unfold fbLed2Block
  cases r.led2OnValue with
  | none => rfl
  | some v =>
    dsimp only
    rw [if_neg]
    simp [hm]

theorem fbMotorAutoBlock_frame (s : SysState) (r : RemoteSnapshot) :
    (fbMotorAutoBlock s r).motorOn = s.motorOn
    ∧ (fbMotorAutoBlock s r).motorsManual = s.motorsManual
    ∧ (fbMotorAutoBlock s r).motorPins = s.motorPins
    ∧ (fbMotorAutoBlock s r).ledsManual = s.ledsManual
    ∧ (fbMotorAutoBlock s r).led1On = s.led1On
    ∧ (fbMotorAutoBlock s r).led2On = s.led2On
    ∧ (fbMotorAutoBlock s r).led1Pin = s.led1Pin
    ∧ (fbMotorAutoBlock s r).led2Pin = s.led2Pin := by
  unfold fbMotorAutoBlock
  cases r.motorAutoEnabledValue <;> simp

theorem fbLightAutoBlock_frame (s : SysState) (r : RemoteSnapshot) :
    (fbLightAutoBlock s r).motorOn = s.motorOn
    ∧ (fbLightAutoBlock s r).motorsManual = s.motorsManual
    ∧ (fbLightAutoBlock s r).motorPins = s.motorPins
    ∧ (fbLightAutoBlock s r).ledsManual = s.ledsManual
    ∧ (fbLightAutoBlock s r).led1On = s.led1On
    ∧ (fbLightAutoBlock s r).led2On = s.led2On
    ∧ (fbLightAutoBlock s r).led1Pin = s.led1Pin
    ∧ (fbLightAutoBlock s r).led2Pin = s.led2Pin := by
  unfold fbLightAutoBlock
  cases r.led1AutoEnabledValue <;> simp

theorem fbLed1Block_motor_frame (s : SysState) (r : RemoteSnapshot) :
    (fbLed1Block s r).motorOn = s.motorOn
    ∧ (fbLed1Block s r).motorsManual = s.motorsManual
    ∧ (fbLed1Block s r).motorPins = s.motorPins
    ∧ (fbLed1Block s r).ledsManual = s.ledsManual := by
  unfold fbLed1Block updateLEDControl
  cases r.led1OnValue with
  | none => simp
  | some v =>
    dsimp only
    split_ifs <;> simp

theorem fbLed2Block_motor_frame (s : SysState) (r : RemoteSnapshot) :
    (fbLed2Block s r).motorOn = s.motorOn
    ∧ (fbLed2Block s r).motorsManual = s.motorsManual
    ∧ (fbLed2Block s r).motorPins = s.motorPins
    ∧ (fbLed2Block s r).ledsManual = s.ledsManual := by
  unfold fbLed2Block updateLEDControl
  cases r.led2OnValue with
  | none => simp
  | some v =>
    dsimp only
    split_ifs <;> simp

theorem fbMotorOnBlock_led_frame (s : SysState) (r : RemoteSnapshot) :
    (fbMotorOnBlock s r).ledsManual = s.ledsManual
    ∧ (fbMotorOnBlock s r).led1On = s.led1On
    ∧ (fbMotorOnBlock s r).led2On = s.led2On
    ∧ (fbMotorOnBlock s r).led1Pin = s.led1Pin
    ∧ (fbMotorOnBlock s r).led2Pin = s.led2Pin := by
  unfold fbMotorOnBlock updateMotorControl
  cases r.motorOnValue with
  | none => simp
  | some v =>
    dsimp only
    split_ifs <;> simp

theorem fbMotorSpeedBlock_led_frame (s : SysState) (r : RemoteSnapshot) :
    (fbMotorSpeedBlock s r).ledsManual = s.ledsManual
    ∧ (fbMotorSpeedBlock s r).led1On = s.led1On
    ∧ (fbMotorSpeedBlock s r).led2On = s.led2On
    ∧ (fbMotorSpeedBlock s r).led1Pin = s.led1Pin
    ∧ (fbMotorSpeedBlock s r).led2Pin = s.led2Pin := by
  unfold fbMotorSpeedBlock updateMotorControl
  cases r.motorSpeedValue with
  | none => simp
  | some v =>
    dsimp only
    split_ifs <;> simp

theorem fbMotorDirectionBlock_led_frame (s : SysState) (r : RemoteSnapshot) :
    (fbMotorDirectionBlock s r).ledsManual = s.ledsManual
    ∧ (fbMotorDirectionBlock s r).led1On = s.led1On
    ∧ (fbMotorDirectionBlock s r).led2On = s.led2On
    ∧ (fbMotorDirectionBlock s r).led1Pin = s.led1Pin
    ∧ (fbMotorDirectionBlock s r).led2Pin = s.led2Pin := by
  unfold fbMotorDirectionBlock updateMotorControl
  cases r.motorDirectionValue with
  | none => simp
  | some v =>
    dsimp only
    split_ifs <;> simp

theorem checkFirebaseControls_manual_motor_frame (s : SysState) (r : RemoteSnapshot)
    (hm : s.motorsManual = true)
    (hsp : r.motorSpeedValue = none) (hdir : r.motorDirectionValue = none) :
    (checkFirebaseControls s r).motorsManual = true
    ∧ (checkFirebaseControls s r).motorOn = s.motorOn
    ∧ (checkFirebaseControls s r).motorPins = s.motorPins := by
  unfold checkFirebaseControls
  rw [fbMotorOnBlock_of_manual s r hm, fbMotorSpeedBlock_of_none s r hsp,
      fbMotorDirectionBlock_of_none s r hdir]
  obtain ⟨a1, a2, a3, -⟩ := fbMotorAutoBlock_frame s r
  obtain ⟨b1, b2, b3, -⟩ := fbLed1Block_motor_frame (fbMotorAutoBlock s r) r
  obtain ⟨c1, c2, c3, -⟩ := fbLed2Block_motor_frame (fbLed1Block (fbMotorAutoBlock s r) r) r
  obtain ⟨d1, d2, d3, -⟩ :=
    fbLightAutoBlock_frame (fbLed2Block (fbLed1Block (fbMotorAutoBlock s r) r) r) r
  refine ⟨?_, ?_, ?_⟩
  · rw [d2, c2, b2, a2, hm]
  · rw [d1, c1, b1, a1]
  · rw [d3, c3, b3, a3]

theorem checkFirebaseControls_manual_led_frame (s : SysState) (r : RemoteSnapshot)
    (hm : s.ledsManual = true) :
    (checkFirebaseControls s r).ledsManual = true
    ∧ (checkFirebaseControls s r).led1On = s.led1On
    ∧ (checkFirebaseControls s r).led2On = s.led2On
    ∧ (checkFirebaseControls s r).led1Pin = s.led1Pin
    ∧ (checkFirebaseControls s r).led2Pin = s.led2Pin := by
  unfold checkFirebaseControls
  obtain ⟨a1, a2, a3, a4, a5⟩ := fbMotorOnBlock_led_frame s r
  obtain ⟨b1, b2, b3, b4, b5⟩ := fbMotorSpeedBlock_led_frame (fbMotorOnBlock s r) r
  obtain ⟨c1, c2, c3, c4, c5⟩ :=
    fbMotorDirectionBlock_led_frame (fbMotorSpeedBlock (fbMotorOnBlock s r) r) r
  obtain ⟨-, -, -, d4, d5, d6, d7, d8⟩ := fbMotorAutoBlock_frame
    (fbMotorDirectionBlock (fbMotorSpeedBlock (fbMotorOnBlock s r) r) r) r
  have hm4 : (fbMotorAutoBlock
      (fbMotorDirectionBlock (fbMotorSpeedBlock (fbMotorOnBlock s r) r) r) r).ledsManual
      = true := by rw [d4, c1, b1, a1, hm]
  rw [fbLed1Block_of_manual _ r hm4, fbLed2Block_of_manual _ r hm4]
  obtain ⟨-, -, -, e4, e5, e6, e7, e8⟩ := fbLightAutoBlock_frame
    (fbMotorAutoBlock (fbMotorDirectionBlock (fbMotorSpeedBlock (fbMotorOnBlock s r) r) r) r) r
  refine ⟨by rw [e4, hm4], ?_, ?_, ?_, ?_⟩
  · rw [e5, d5, c2, b2, a2]
  · rw [e6, d6, c3, b3, a3]
  · rw [e7, d7, c4, b4, a4]
  · rw [e8, d8, c5, b5, a5]

theorem processAutomaticControls_manual_motor_frame (s : SysState)
    (hm : s.motorsManual = true) :
    (processAutomaticControls s).motorsManual = true
    ∧ (processAutomaticControls s).motorOn = s.motorOn
    ∧ (processAutomaticControls s).motorPins = s.motorPins := by
  unfold processAutomaticControls
  obtain ⟨f1, f2, f3, -⟩ := autoLightBlock_motor_frame s
  rw [autoMotorBlock_id_of_manual _ (by rw [f2, hm])]
  exact ⟨by rw [f2, hm], f1, f3⟩

theorem processAutomaticControls_manual_led_frame (s : SysState)
    (hm : s.ledsManual = true) :
    (processAutomaticControls s).ledsManual = true
    ∧ (processAutomaticControls s).led1On = s.led1On
    ∧ (processAutomaticControls s).led2On = s.led2On
    ∧ (processAutomaticControls s).led1Pin = s.led1Pin
    ∧ (processAutomaticControls s).led2Pin = s.led2Pin := by
  unfold processAutomaticControls
  rw [autoLightBlock_id_of_manual s hm]
  obtain ⟨g1, g2, g3, g4, -, g6, -⟩ := autoMotorBlock_led_frame s
  exact ⟨by rw [g6, hm], g1, g2, g3, g4⟩

/-- The loop-body actions that can touch the control state between two
physical switch presses: an accepted Firebase poll (`checkFirebaseControls`),
an automatic-policy pass (`processAutomaticControls`), an LDR sample
(`readSensors` storing `ldrValue`), and a DHT sample (`readDHTSensor` storing
`temperature`). -/
inductive LoopEvent where
  | remotePoll (r : RemoteSnapshot)
  | autoTick
  | ldrSample (v : Nat)
  | dhtSample (t : ℚ)

def applyLoopEvent (s : SysState) : LoopEvent → SysState
  | .remotePoll r => checkFirebaseControls s r
  | .autoTick => processAutomaticControls s
  | .ldrSample v => { s with ldrValue := v }
  | .dhtSample t => { s with temperature := t }

def runLoopEvents (s : SysState) : List LoopEvent → SysState
  | [] => s
  | e :: es => runLoopEvents (applyLoopEvent s e) es

theorem applyLoopEvent_manual_motor_frame (s : SysState) (e : LoopEvent)
    (hm : s.motorsManual = true)
    (hr : ∀ r, e = LoopEvent.remotePoll r →
      r.motorSpeedValue = none ∧ r.motorDirectionValue = none) :
    (applyLoopEvent s e).motorsManual = true
    ∧ (applyLoopEvent s e).motorOn = s.motorOn
    ∧ (applyLoopEvent s e).motorPins = s.motorPins := by
  cases e with
  | remotePoll r =>
    exact checkFirebaseControls_manual_motor_frame s r hm (hr r rfl).1 (hr r rfl).2
  | autoTick => exact processAutomaticControls_manual_motor_frame s hm
  | ldrSample v => exact ⟨by simpa [applyLoopEvent] using hm, by simp [applyLoopEvent], by simp [applyLoopEvent]⟩
  | dhtSample t => exact ⟨by simpa [applyLoopEvent] using hm, by simp [applyLoopEvent], by simp [applyLoopEvent]⟩

theorem applyLoopEvent_manual_led_frame (s : SysState) (e : LoopEvent)
    (hm : s.ledsManual = true) :
    (applyLoopEvent s e).ledsManual = true
    ∧ (applyLoopEvent s e).led1On = s.led1On
    ∧ (applyLoopEvent s e).led2On = s.led2On
    ∧ (applyLoopEvent s e).led1Pin = s.led1Pin
    ∧ (applyLoopEvent s e).led2Pin = s.led2Pin := by
  cases e with
  | remotePoll r => exact checkFirebaseControls_manual_led_frame s r hm
  | autoTick => exact processAutomaticControls_manual_led_frame s hm
  | ldrSample v =>
    exact ⟨by simpa [applyLoopEvent] using hm, by simp [applyLoopEvent],
      by simp [applyLoopEvent], by simp [applyLoopEvent], by simp [applyLoopEvent]⟩
  | dhtSample t =>
    exact ⟨by simpa [applyLoopEvent] using hm, by simp [applyLoopEvent],
      by simp [applyLoopEvent], by simp [applyLoopEvent], by simp [applyLoopEvent]⟩

/-- C1 (amended): while an actuator is in Manual mode, remote dashboard
on/off commands are ignored across any interleaving of accepted polls,
automatic-policy passes and sensor samples — the on/off state, the physical
output and the manual flag all stay unchanged, and nothing but a physical
switch press can clear the manual flag.  For the motor this requires that
the polls carry no speed or direction change: those two dashboard commands
are applied by `checkFirebaseControls()` with no manual check and can change
the physical drive even in Manual mode (see the counterexample). -/
theorem remote_commands_ignored_while_manual (s : SysState) (es : List LoopEvent) :
    (s.motorsManual = true →
      (∀ r, LoopEvent.remotePoll r ∈ es →
        r.motorSpeedValue = none ∧ r.motorDirectionValue = none) →
      (runLoopEvents s es).motorsManual = true
      ∧ (runLoopEvents s es).motorOn = s.motorOn
      ∧ (runLoopEvents s es).motorPins = s.motorPins)
    ∧ (s.ledsManual = true →
      (runLoopEvents s es).ledsManual = true
      ∧ (runLoopEvents s es).led1On = s.led1On
      ∧ (runLoopEvents s es).led2On = s.led2On
      ∧ (runLoopEvents s es).led1Pin = s.led1Pin
      ∧ (runLoopEvents s es).led2Pin = s.led2Pin) := by
  induction es generalizing s with
  | nil => exact ⟨fun hm _ => ⟨hm, rfl, rfl⟩, fun hm => ⟨hm, rfl, rfl, rfl, rfl⟩⟩
  | cons e es ih =>
    constructor
    · intro hm hr
      have hstep := applyLoopEvent_manual_motor_frame s e hm
        (fun r he => hr r (by rw [he]; exact List.mem_cons_self _ _))
      have hrest := (ih (applyLoopEvent s e)).1 hstep.1
        (fun r hre => hr r (List.mem_cons_of_mem e hre))
      refine ⟨hrest.1, ?_, ?_⟩
      · rw [show runLoopEvents s (e :: es) = runLoopEvents (applyLoopEvent s e) es from rfl,
          hrest.2.1, hstep.2.1]
      · rw [show runLoopEvents s (e :: es) = runLoopEvents (applyLoopEvent s e) es from rfl,
          hrest.2.2, hstep.2.2]
    · intro hm
      have hstep := applyLoopEvent_manual_led_frame s e hm
      have hrest := (ih (applyLoopEvent s e)).2 hstep.1
      refine ⟨hrest.1, ?_, ?_, ?_, ?_⟩ <;>
        rw [show runLoopEvents s (e :: es) = runLoopEvents (applyLoopEvent s e) es from rfl]
      · rw [hrest.2.1, hstep.2.1]
      · rw [hrest.2.2.1, hstep.2.2.1]
      · rw [hrest.2.2.2.1, hstep.2.2.2.1]
      · rw [hrest.2.2.2.2, hstep.2.2.2.2]

/-- A state in which both actuators were put in Manual mode by switch
presses (motor running, LEDs on). -/
def manualBothState : SysState :=
  { initState with
      motorsManual := true, motorOn := true,
      motorPins := { in1 := true, in2 := false, pwm := 102 },
      ledsManual := true, led1On := true, led2On := true,
      led1Pin := true, led2Pin := true }

/-- A dashboard command trying to switch everything off (no speed or
direction change). -/
def allOffCmd : RemoteSnapshot :=
  { motorOnValue := some false
    motorSpeedValue := none
    motorDirectionValue := none
    motorAutoEnabledValue := some true
    led1OnValue := some false
    led2OnValue := some false
    led1AutoEnabledValue := some true }

def demoEvents : List LoopEvent :=
  [LoopEvent.remotePoll allOffCmd, LoopEvent.autoTick, LoopEvent.ldrSample 100,
   LoopEvent.remotePoll allOffCmd, LoopEvent.autoTick]

theorem remote_commands_ignored_while_manual_witness :
    ((runLoopEvents manualBothState demoEvents).motorsManual = true
      ∧ (runLoopEvents manualBothState demoEvents).motorOn = manualBothState.motorOn
      ∧ (runLoopEvents manualBothState demoEvents).motorPins = manualBothState.motorPins)
    ∧ ((runLoopEvents manualBothState demoEvents).ledsManual = true
      ∧ (runLoopEvents manualBothState demoEvents).led1On = manualBothState.led1On
      ∧ (runLoopEvents manualBothState demoEvents).led2On = manualBothState.led2On
      ∧ (runLoopEvents manualBothState demoEvents).led1Pin = manualBothState.led1Pin
      ∧ (runLoopEvents manualBothState demoEvents).led2Pin = manualBothState.led2Pin) :=
  ⟨(remote_commands_ignored_while_manual manualBothState demoEvents).1 (by decide)
      (by
        intro r hr
        simp only [demoEvents, List.mem_cons, List.not_mem_nil, or_false] at hr
        rcases hr with h | h | h | h | h
        · rw [show r = allOffCmd from by injection h]
          exact ⟨rfl, rfl⟩
        · exact absurd h (by simp)
        · exact absurd h (by simp)
        · rw [show r = allOffCmd from by injection h]
          exact ⟨rfl, rfl⟩
        · exact absurd h (by simp)),
   (remote_commands_ignored_while_manual manualBothState demoEvents).2 (by decide)⟩

/-- C1 counterexample: a dashboard speed command arriving while the motor is
in Manual mode (and running) IS applied — the PWM drive changes from 102 to
163 — refuting the claim that every remote command arriving in Manual mode
leaves the physical output unchanged. -/
theorem remote_speed_applied_while_manual :
    manualBothState.motorsManual = true
    ∧ manualBothState.motorPins.pwm = 102
    ∧ (checkFirebaseControls manualBothState
        { motorOnValue := none
          motorSpeedValue := some 80
          motorDirectionValue := none
          motorAutoEnabledValue := none
          led1OnValue := none
          led2OnValue := none
          led1AutoEnabledValue := none }).motorPins.pwm = 163 := by
  decide

/-- The motor-switch handler of `checkManualSwitches()` (ino variant): on an
accepted press edge (button down, not already registered as pressed, and more
than `DEBOUNCE_DELAY` since the last accepted press) it flips `motorsManual`,
sets `motorOn` to the new `motorsManual`, and applies the motor output; on
release it clears the pressed latch. -/
def motorSwitchBlock (s : SysState) (motorButtonPressed : Bool) (now : Nat) : SysState :=
  if motorButtonPressed = true ∧ s.motorSwitchPressed = false
      ∧ DEBOUNCE_DELAY < now - s.lastMotorSwitchTime then
    let t : SysState :=
      { s with motorSwitchPressed := true, lastMotorSwitchTime := now,
               motorsManual := !s.motorsManual }
    updateMotorControl { t with motorOn := t.motorsManual }
  else if motorButtonPressed = false ∧ s.motorSwitchPressed = true then
    { s with motorSwitchPressed := false }
  else s

/-- The LEDs-switch handler of `checkManualSwitches()` (ino variant). -/
def ledsSwitchBlock (s : SysState) (ledsButtonPressed : Bool) (now : Nat) : SysState :=
  if ledsButtonPressed = true ∧ s.ledsSwitchPressed = false
      ∧ DEBOUNCE_DELAY < now - s.lastLedsSwitchTime then
    let t : SysState :=
      { s with ledsSwitchPressed := true, lastLedsSwitchTime := now,
               ledsManual := !s.ledsManual }
    updateLEDControl { t with led1On := t.ledsManual, led2On := t.ledsManual }
  else if ledsButtonPressed = false ∧ s.ledsSwitchPressed = true then
    { s with ledsSwitchPressed := false }
  else s

/-- `checkManualSwitches()` from the ino variant: motor switch handled first,
then the LEDs switch, both against the same `millis()` reading. -/
def checkManualSwitches (s : SysState)
    (motorButtonPressed ledsButtonPressed : Bool) (now : Nat) : SysState :=
  ledsSwitchBlock (motorSwitchBlock s motorButtonPressed now) ledsButtonPressed now

theorem motorSwitchBlock_led_frame (s : SysState) (b : Bool) (now : Nat) :
    (motorSwitchBlock s b now).ledsManual = s.ledsManual
    ∧ (motorSwitchBlock s b now).led1On = s.led1On
    ∧ (motorSwitchBlock s b now).led2On = s.led2On
    ∧ (motorSwitchBlock s b now).ledsSwitchPressed = s.ledsSwitchPressed
    ∧ (motorSwitchBlock s b now).lastLedsSwitchTime = s.lastLedsSwitchTime := by
  unfold motorSwitchBlock updateMotorControl
  dsimp only
  split_ifs <;> simp

/-- C8 (amended): an accepted (debounced) switch press toggles the actuator's
mode flag between Auto and Manual, and sets the actuator's desired on/off
state equal to the NEW mode flag — ON when entering Manual, OFF when
returning to Auto — rather than to the negation of the current on/off
state. -/
theorem switch_edge_sets_mode_and_state (s : SysState) (mB lB : Bool) (now : Nat) :
    (mB = true → s.motorSwitchPressed = false →
      DEBOUNCE_DELAY < now - s.lastMotorSwitchTime →
      (checkManualSwitches s mB lB now).motorsManual = !s.motorsManual
      ∧ (checkManualSwitches s mB lB now).motorOn = !s.motorsManual)
    ∧ (lB = true → s.ledsSwitchPressed = false →
      DEBOUNCE_DELAY < now - s.lastLedsSwitchTime →
      (checkManualSwitches s mB lB now).ledsManual = !s.ledsManual
      ∧ (checkManualSwitches s mB lB now).led1On = !s.ledsManual
      ∧ (checkManualSwitches s mB lB now).led2On = !s.ledsManual) := by
  constructor
  · intro hb hp ht
    unfold checkManualSwitches ledsSwitchBlock motorSwitchBlock
      updateMotorControl updateLEDControl
    dsimp only
    split_ifs <;> simp_all
  · intro hb hp ht
    unfold checkManualSwitches ledsSwitchBlock motorSwitchBlock
      updateMotorControl updateLEDControl
    dsimp only
    split_ifs <;> simp_all

theorem switch_edge_sets_mode_and_state_witness :
    (true = true → initState.motorSwitchPressed = false →
      DEBOUNCE_DELAY < 200 - initState.lastMotorSwitchTime →
      (checkManualSwitches initState true true 200).motorsManual = !initState.motorsManual
      ∧ (checkManualSwitches initState true true 200).motorOn = !initState.motorsManual)
    ∧ (true = true → initState.ledsSwitchPressed = false →
      DEBOUNCE_DELAY < 200 - initState.lastLedsSwitchTime →
      (checkManualSwitches initState true true 200).ledsManual = !initState.ledsManual
      ∧ (checkManualSwitches initState true true 200).led1On = !initState.ledsManual
      ∧ (checkManualSwitches initState true true 200).led2On = !initState.ledsManual) :=
  switch_edge_sets_mode_and_state initState true true 200

/-- A state in which the automatic policy is already running the motor while
the mode is still Auto. -/
def autoRunningState : SysState :=
  { initState with
      motorOn := true
      autoMotorTriggered := true
      motorPins := { in1 := true, in2 := false, pwm := 102 } }

/-- C8 counterexample: with the motor already running under automatic control
(`motorOn = true`, mode Auto), an accepted switch press enters Manual mode and
leaves `motorOn = true` — the same value as before, not the negation of the
current state the claim prescribes. -/
theorem switch_press_keeps_on_state :
    autoRunningState.motorOn = true
    ∧ autoRunningState.motorsManual = false
    ∧ (checkManualSwitches autoRunningState true false 200).motorsManual = true
    ∧ (checkManualSwitches autoRunningState true false 200).motorOn = true := by
  decide

/-- `NOTIFICATION_MINUTE_MS` from the part000 variant. -/
def NOTIFICATION_MINUTE_MS : Nat := 60000

/-- `MAX_NOTIFICATIONS_PER_MIN` from the part000 variant (the ino variant
uses the same capacity, 10). -/
def MAX_NOTIFICATIONS_PER_MIN : Nat := 10

/-- The rate-limiter state of `sendNotification` (part000 variant):
`notificationMinuteStart` and `notificationCount` for the fixed window,
`lastNotificationTime` for the motion spacing rule. -/
structure NotifState where
  notificationMinuteStart : Nat
  notificationCount : Nat
  lastNotificationTime : Nat
deriving DecidableEq

inductive NotifResult where
  | emitted
  | suppressed
deriving DecidableEq

/-- The per-minute window reset at the top of `sendNotification` (part000
variant): when at least `NOTIFICATION_MINUTE_MS` have elapsed since the
window start, restart the window at `now` with a zero count. -/
def notifWindowRoll (s : NotifState) (now : Nat) : NotifState :=
  if NOTIFICATION_MINUTE_MS ≤ now - s.notificationMinuteStart then
    { s with notificationMinuteStart := now, notificationCount := 0 }
  else s

/-- The gating part of `sendNotification` after the window roll: drop the
event if the window count has reached capacity, then drop a motion event
arriving less than 2000 ms after the last emitted event; otherwise write it
out, bump the window count and record the emission time. -/
def sendNotifGate (s : NotifState) (ty : String) (now : Nat) : NotifState × NotifResult :=
  if MAX_NOTIFICATIONS_PER_MIN ≤ s.notificationCount then
    (s, NotifResult.suppressed)
  else if ty = ("motion") ∧ now - s.lastNotificationTime < 2000 then
    (s, NotifResult.suppressed)
  else
    ({ s with notificationCount := s.notificationCount + 1, lastNotificationTime := now },
      NotifResult.emitted)

/-- `sendNotification` from the part000 variant: roll the window, then apply
the two suppression checks in source order.  The string arguments mirror the
source signature; only `ty` (the event kind) affects control flow. -/
def sendNotification (s : NotifState) (ty _actor _message _details : String)
    (now : Nat) : NotifState × NotifResult :=
  sendNotifGate (notifWindowRoll s now) ty now

/-- A submission: the event kind and the `millis()` timestamp at which it is
submitted (the actor/message/details strings do not affect the limiter). -/
def submitNotification (s : NotifState) (p : String × Nat) : NotifState × NotifResult :=
  sendNotification s p.1 ("src") ("msg") ("e") p.2

def runNotifications (s : NotifState) : List (String × Nat) → NotifState
  | [] => s
  | p :: rest => runNotifications (submitNotification s p).1 rest

/-- How many of the submissions in the list are actually emitted. -/
def emittedTotal (s : NotifState) : List (String × Nat) → Nat
  | [] => 0
  | p :: rest =>
      (if (submitNotification s p).2 = NotifResult.emitted then 1 else 0)
        + emittedTotal (submitNotification s p).1 rest

theorem notifWindowRoll_of_inside (s : NotifState) (now : Nat)
    (h : now - s.notificationMinuteStart < NOTIFICATION_MINUTE_MS) :
    notifWindowRoll s now = s := by
  unfold notifWindowRoll
  rw [if_neg (not_le.mpr h)]

theorem sendNotifGate_cases (s : NotifState) (ty : String) (now : Nat) :
    ((sendNotifGate s ty now).2 = NotifResult.suppressed ∧ (sendNotifGate s ty now).1 = s)
    ∨ ((sendNotifGate s ty now).2 = NotifResult.emitted
        ∧ (sendNotifGate s ty now).1.notificationCount = s.notificationCount + 1
        ∧ (sendNotifGate s ty now).1.notificationMinuteStart = s.notificationMinuteStart
        ∧ s.notificationCount < MAX_NOTIFICATIONS_PER_MIN) := by
  unfold sendNotifGate
  split_ifs with hcap hmot
  · exact Or.inl ⟨rfl, rfl⟩
  · exact Or.inl ⟨rfl, rfl⟩
  · exact Or.inr ⟨rfl, rfl, rfl, not_le.mp hcap⟩

theorem sendNotifGate_motion_suppressed (s : NotifState) (now : Nat)
    (h : now - s.lastNotificationTime < 2000) :
    (sendNotifGate s ("motion") now).2 = NotifResult.suppressed := by
  unfold sendNotifGate
  split_ifs with hcap hmot
  · rfl
  · rfl
  · exact absurd ⟨rfl, h⟩ hmot

theorem emittedTotal_le (s : NotifState) (subs : List (String × Nat))
    (hin : ∀ p ∈ subs, p.2 - s.notificationMinuteStart < NOTIFICATION_MINUTE_MS) :
    emittedTotal s subs ≤ MAX_NOTIFICATIONS_PER_MIN - s.notificationCount := by
  induction subs generalizing s with
  | nil => simp [emittedTotal]
  | cons p rest ih =>
    have hroll : notifWindowRoll s p.2 = s :=
      notifWindowRoll_of_inside s p.2 (hin p (List.mem_cons_self p rest))
    have hsub : submitNotification s p = sendNotifGate s p.1 p.2 := by
      unfold submitNotification sendNotification
      rw [hroll]
    rcases sendNotifGate_cases s p.1 p.2 with ⟨hs, hstate⟩ | ⟨he, hbump, hmin, hlt⟩
    · unfold emittedTotal
      rw [hsub, hstate, if_neg (by simp [hs])]
      simp only [Nat.zero_add]
      exact ih s (fun q hq => hin q (List.mem_cons_of_mem p hq))
    · unfold emittedTotal
      rw [hsub, if_pos he]
      have hrest := ih (sendNotifGate s p.1 p.2).1 (fun q hq => by
        rw [hmin]
        exact hin q (List.mem_cons_of_mem p hq))
      rw [hbump] at hrest
      omega

theorem sendNotification_emitted_time (s : NotifState) (ty a m d : String) (now : Nat)
    (h : (sendNotification s ty a m d now).2 = NotifResult.emitted) :
    (sendNotification s ty a m d now).1.lastNotificationTime = now := by
  unfold sendNotification sendNotifGate at h ⊢
  split_ifs at h ⊢ with h1 h2
  rfl

theorem submitNotification_lastTime (s : NotifState) (p : String × Nat) :
    (submitNotification s p).1.lastNotificationTime = s.lastNotificationTime
    ∨ (submitNotification s p).1.lastNotificationTime = p.2 := by
  unfold submitNotification sendNotification sendNotifGate notifWindowRoll
  split_ifs <;> simp

theorem runNotifications_lastTime_lb (subs : List (String × Nat)) (s : NotifState)
    (t : Nat) (hlb : t ≤ s.lastNotificationTime) (hts : ∀ p ∈ subs, t ≤ p.2) :
    t ≤ (runNotifications s subs).lastNotificationTime := by
  induction subs generalizing s with
  | nil => exact hlb
  | cons p rest ih =>
    unfold runNotifications
    refine ih _ ?_ (fun q hq => hts q (List.mem_cons_of_mem p hq))
    rcases submitNotification_lastTime s p with h | h
    · rw [h]
      exact hlb
    · rw [h]
      exact hts p (List.mem_cons_self p rest)

theorem runNotifications_lastTime_ub (subs : List (String × Nat)) (s : NotifState)
    (t : Nat) (hub : s.lastNotificationTime ≤ t) (hts : ∀ p ∈ subs, p.2 ≤ t) :
    (runNotifications s subs).lastNotificationTime ≤ t := by
  induction subs generalizing s with
  | nil => exact hub
  | cons p rest ih =>
    unfold runNotifications
    refine ih _ ?_ (fun q hq => hts q (List.mem_cons_of_mem p hq))
    rcases submitNotification_lastTime s p with h | h
    · rw [h]
      exact hub
    · rw [h]
      exact hts p (List.mem_cons_self p rest)

/-- C3: (window cap) starting a fresh 60-second window, any sequence of
submissions whose timestamps stay inside the window emits at most 10 events —
an 11th submission in the same window is necessarily suppressed; and
(motion spacing) once a motion event is emitted at time `tj`, a motion event
submitted at time `ti` with `ti - tj < 2000` is suppressed, whatever
submissions happen in between (their timestamps lying between the two) and
regardless of the window count. -/
theorem notification_rate_limit :
    (∀ (s : NotifState) (subs : List (String × Nat)),
      s.notificationCount = 0 →
      (∀ p ∈ subs, p.2 - s.notificationMinuteStart < NOTIFICATION_MINUTE_MS) →
      emittedTotal s subs ≤ MAX_NOTIFICATIONS_PER_MIN)
    ∧ (∀ (s : NotifState) (tj : Nat) (mid : List (String × Nat)) (ti : Nat),
      (sendNotification s ("motion") ("PIR") ("m") ("e") tj).2 = NotifResult.emitted →
      (∀ p ∈ mid, tj ≤ p.2 ∧ p.2 ≤ ti) →
      ti - tj < 2000 →
      (sendNotification
          (runNotifications (sendNotification s ("motion") ("PIR") ("m") ("e") tj).1 mid)
          ("motion") ("PIR") ("m") ("e") ti).2 = NotifResult.suppressed) := by
  constructor
  · intro s subs h0 hin
    have := emittedTotal_le s subs hin
    omega
  · intro s tj mid ti hj hmid hspacing
    have hjt : (sendNotification s ("motion") ("PIR") ("m") ("e") tj).1.lastNotificationTime
        = tj := sendNotification_emitted_time s ("motion") ("PIR") ("m") ("e") tj hj
    have hlb : tj ≤ (runNotifications
        (sendNotification s ("motion") ("PIR") ("m") ("e") tj).1 mid).lastNotificationTime :=
      runNotifications_lastTime_lb mid _ tj (le_of_eq hjt.symm)
        (fun p hp => (hmid p hp).1)
    have hub : (runNotifications
        (sendNotification s ("motion") ("PIR") ("m") ("e") tj).1 mid).lastNotificationTime
        ≤ max ti tj :=
      runNotifications_lastTime_ub mid _ (max ti tj)
        (by rw [hjt]; exact le_max_right ti tj)
        (fun p hp => le_trans (hmid p hp).2 (le_max_left ti tj))
    have hclose : ti - (runNotifications
        (sendNotification s ("motion") ("PIR") ("m") ("e") tj).1 mid).lastNotificationTime
        < 2000 := by omega
    have hroll : (notifWindowRoll (runNotifications
        (sendNotification s ("motion") ("PIR") ("m") ("e") tj).1 mid) ti).lastNotificationTime
        = (runNotifications
        (sendNotification s ("motion") ("PIR") ("m") ("e") tj).1 mid).lastNotificationTime := by
      unfold notifWindowRoll
      split_ifs <;> rfl
    show (sendNotifGate (notifWindowRoll (runNotifications
        (sendNotification s ("motion") ("PIR") ("m") ("e") tj).1 mid) ti)
        ("motion") ti).2 = NotifResult.suppressed
    apply sendNotifGate_motion_suppressed
    rw [hroll]
    exact hclose

theorem notification_rate_limit_witness :
    ((⟨0, 0, 0⟩ : NotifState).notificationCount = 0
      ∧ (∀ p ∈ ([(("auto"), 5), (("auto"), 10)] : List (String × Nat)),
          p.2 - (⟨0, 0, 0⟩ : NotifState).notificationMinuteStart < NOTIFICATION_MINUTE_MS)
      ∧ emittedTotal ⟨0, 0, 0⟩ [(("auto"), 5), (("auto"), 10)] ≤ MAX_NOTIFICATIONS_PER_MIN)
    ∧ ((sendNotification ⟨0, 0, 0⟩ ("motion") ("PIR") ("m") ("e") 2500).2
          = NotifResult.emitted
      ∧ (∀ p ∈ ([(("auto"), 2600)] : List (String × Nat)), 2500 ≤ p.2 ∧ p.2 ≤ 3000)
      ∧ 3000 - 2500 < 2000
      ∧ (sendNotification
          (runNotifications
            (sendNotification ⟨0, 0, 0⟩ ("motion") ("PIR") ("m") ("e") 2500).1
            [(("auto"), 2600)])
          ("motion") ("PIR") ("m") ("e") 3000).2 = NotifResult.suppressed) :=
  ⟨⟨rfl, by decide,
      notification_rate_limit.1 ⟨0, 0, 0⟩ [(("auto"), 5), (("auto"), 10)] rfl (by decide)⟩,
   ⟨by decide, by decide, by decide,
      notification_rate_limit.2 ⟨0, 0, 0⟩ 2500 [(("auto"), 2600)] 3000 (by decide)
        (by decide) (by decide)⟩⟩

/-- C10: a suppressed submission leaves the limiter state unchanged apart
from the window-boundary reset — neither the window counter is incremented
nor the last-emission timestamp updated — while an emitted submission bumps
the (post-reset) counter by exactly one and records its own timestamp. -/
theorem suppressed_notification_frame (s : NotifState) (ty a m d : String) (now : Nat) :
    ((sendNotification s ty a m d now).2 = NotifResult.suppressed →
      (sendNotification s ty a m d now).1 = notifWindowRoll s now)
    ∧ ((sendNotification s ty a m d now).2 = NotifResult.emitted →
      (sendNotification s ty a m d now).1.notificationCount
          = (notifWindowRoll s now).notificationCount + 1
      ∧ (sendNotification s ty a m d now).1.lastNotificationTime = now) := by
  unfold sendNotification sendNotifGate
  split_ifs <;> simp_all

theorem suppressed_notification_frame_witness :
    ((sendNotification ⟨0, 10, 0⟩ ("auto") ("a") ("m") ("e") 50).2
        = NotifResult.suppressed
      ∧ (sendNotification ⟨0, 10, 0⟩ ("auto") ("a") ("m") ("e") 50).1
          = notifWindowRoll ⟨0, 10, 0⟩ 50)
    ∧ ((sendNotification ⟨0, 3, 0⟩ ("auto") ("a") ("m") ("e") 50).2
        = NotifResult.emitted
      ∧ (sendNotification ⟨0, 3, 0⟩ ("auto") ("a") ("m") ("e") 50).1.notificationCount
          = (notifWindowRoll ⟨0, 3, 0⟩ 50).notificationCount + 1
      ∧ (sendNotification ⟨0, 3, 0⟩ ("auto") ("a") ("m") ("e") 50).1.lastNotificationTime
          = 50) :=
  ⟨⟨by decide,
      (suppressed_notification_frame ⟨0, 10, 0⟩ ("auto") ("a") ("m") ("e") 50).1 (by decide)⟩,
   ⟨by decide,
      (suppressed_notification_frame ⟨0, 3, 0⟩ ("auto") ("a") ("m") ("e") 50).2 (by decide)⟩⟩

/-- `MOTION_DEBOUNCE_MS` from the part000 variant: the PIR stability
window. -/
def MOTION_DEBOUNCE_MS : Nat := 150

/-- The PIR-related state of the part000 variant: the last raw sample, the
timestamp of the last raw change, the stability latch, the debounced motion
state, and the scheduled motion-LED off time. -/
structure PirState where
  lastRawMotion : Bool
  lastMotionChange : Nat
  pirStableState : Bool
  motionDetected : Bool
  motionLedOffAt : Nat
deriving DecidableEq

/-- The raw-change step at the top of `readPIR` (part000 variant): a raw
sample differing from the previous one restarts the stability timer. -/
def readPIRreset (s : PirState) (raw : Bool) (now : Nat) : PirState :=
  if raw ≠ s.lastRawMotion then
    { s with lastRawMotion := raw, lastMotionChange := now, pirStableState := false }
  else s

/-- The stability check of `readPIR` (part000 variant): once the raw value
has been unchanged for at least `MOTION_DEBOUNCE_MS`, latch stability and
commit the edge-triggered `motionDetected` transition (the Firebase write,
notification and LED output are side effects modelled elsewhere, except the
scheduled LED-off time kept here). -/
def readPIRstable (s : PirState) (raw : Bool) (now : Nat) : PirState :=
  if s.pirStableState = false ∧ MOTION_DEBOUNCE_MS ≤ now - s.lastMotionChange then
    if raw = true ∧ s.motionDetected = false then
      { s with pirStableState := true, motionDetected := true,
               motionLedOffAt := now + 8000 }
    else if raw = false ∧ s.motionDetected = true then
      { s with pirStableState := true, motionDetected := false }
    else { s with pirStableState := true }
  else s

/-- `readPIR` from the part000 variant: the raw-change reset followed by the
stability check. -/
def readPIR (s : PirState) (raw : Bool) (now : Nat) : PirState :=
  readPIRstable (readPIRreset s raw now) raw now

def runPIR (s : PirState) : List (Bool × Nat) → PirState
  | [] => s
  | p :: rest => runPIR (readPIR s p.1 p.2) rest

theorem readPIRreset_of_same (s : PirState) (raw : Bool) (now : Nat)
    (h : raw = s.lastRawMotion) : readPIRreset s raw now = s := by
  unfold readPIRreset
  rw [if_neg (by simp [h])]

theorem readPIR_of_change (s : PirState) (raw : Bool) (now : Nat)
    (h : raw ≠ s.lastRawMotion) :
    readPIR s raw now
      = { s with lastRawMotion := raw, lastMotionChange := now, pirStableState := false } := by
  unfold readPIR readPIRreset readPIRstable
  rw [if_pos h, if_neg]
  intro hcon
  simp [MOTION_DEBOUNCE_MS] at hcon

theorem readPIR_of_short (s : PirState) (raw : Bool) (now : Nat)
    (hsame : raw = s.lastRawMotion) (hshort : now - s.lastMotionChange < MOTION_DEBOUNCE_MS) :
    readPIR s raw now = s := by
  unfold readPIR
  rw [readPIRreset_of_same s raw now hsame]
  unfold readPIRstable
  rw [if_neg]
  intro hcon
  exact absurd hcon.2 (not_le.mpr hshort)

theorem readPIR_keeps_agreeing (s : PirState) (raw : Bool) (now : Nat)
    (h : s.motionDetected = raw) : (readPIR s raw now).motionDetected = raw := by
  unfold readPIR readPIRreset readPIRstable
  split_ifs <;> simp_all

/-- C6 (amended, for the part000 `readPIR` debouncer): (a) a raw sample that
differs from the previous one restarts the stability timer at the current
instant and never changes the debounced state in the same call; (b) the
debounced state changes only when the raw value agrees with the previous
sample and has been stable for at least the 150 ms window, and the new state
equals the raw value; (c) once the debounced state agrees with the raw value,
a run of identical raw samples can never change it again (so it changes at
most once per contiguous run); (d) a contiguous run of identical raw samples
entirely inside the stability window leaves the whole PIR state untouched. -/
theorem pir_debounce_contract :
    (∀ (s : PirState) (raw : Bool) (now : Nat), raw ≠ s.lastRawMotion →
      (readPIR s raw now).lastMotionChange = now
      ∧ (readPIR s raw now).motionDetected = s.motionDetected
      ∧ (readPIR s raw now).pirStableState = false)
    ∧ (∀ (s : PirState) (raw : Bool) (now : Nat),
      (readPIR s raw now).motionDetected ≠ s.motionDetected →
      raw = s.lastRawMotion ∧ MOTION_DEBOUNCE_MS ≤ now - s.lastMotionChange
      ∧ (readPIR s raw now).motionDetected = raw)
    ∧ (∀ (s : PirState) (r : Bool) (ts : List Nat), s.motionDetected = r →
      (runPIR s (ts.map fun t => (r, t))).motionDetected = r)
    ∧ (∀ (s : PirState) (r : Bool) (ts : List Nat), s.lastRawMotion = r →
      (∀ t ∈ ts, t - s.lastMotionChange < MOTION_DEBOUNCE_MS) →
      runPIR s (ts.map fun t => (r, t)) = s) := by
  refine ⟨?_, ?_, ?_, ?_⟩
  · intro s raw now h
    rw [readPIR_of_change s raw now h]
    exact ⟨rfl, rfl, rfl⟩
  · intro s raw now h
    by_cases hsame : raw = s.lastRawMotion
    · refine ⟨hsame, ?_⟩
      rw [show readPIR s raw now = readPIRstable s raw now from by
        unfold readPIR
        rw [readPIRreset_of_same s raw now hsame]] at h ⊢
      unfold readPIRstable at h ⊢
      split_ifs at h ⊢ with h1 h2 h3 <;> simp_all
    · exfalso
      rw [readPIR_of_change s raw now hsame] at h
      exact h rfl
  · intro s r ts hagree
    induction ts generalizing s with
    | nil => exact hagree
    | cons t rest ih =>
      simp only [List.map_cons]
      unfold runPIR
      exact ih _ (readPIR_keeps_agreeing s r t hagree)
  · intro s r ts hraw hshort
    induction ts with
    | nil => rfl
    | cons t rest ih =>
      simp only [List.map_cons]
      unfold runPIR
      rw [readPIR_of_short s r t (hraw.symm) (hshort t (List.mem_cons_self t rest))]
      exact ih (fun u hu => hshort u (List.mem_cons_of_mem t hu))

theorem pir_debounce_contract_witness :
    ((true : Bool) ≠ (⟨false, 0, true, false, 0⟩ : PirState).lastRawMotion
      ∧ ((readPIR ⟨false, 0, true, false, 0⟩ true 40).lastMotionChange = 40
        ∧ (readPIR ⟨false, 0, true, false, 0⟩ true 40).motionDetected = false
        ∧ (readPIR ⟨false, 0, true, false, 0⟩ true 40).pirStableState = false))
    ∧ ((readPIR ⟨true, 40, false, false, 0⟩ true 200).motionDetected ≠ false
      ∧ ((true : Bool) = (⟨true, 40, false, false, 0⟩ : PirState).lastRawMotion
        ∧ MOTION_DEBOUNCE_MS ≤ 200 - 40
        ∧ (readPIR ⟨true, 40, false, false, 0⟩ true 200).motionDetected = true))
    ∧ ((⟨true, 40, true, true, 0⟩ : PirState).motionDetected = true
      ∧ (runPIR ⟨true, 40, true, true, 0⟩
          ([200, 300].map fun t => ((true : Bool), t))).motionDetected = true)
    ∧ ((⟨true, 40, false, false, 0⟩ : PirState).lastRawMotion = true
      ∧ (∀ t ∈ ([50, 100] : List Nat),
          t - (⟨true, 40, false, false, 0⟩ : PirState).lastMotionChange < MOTION_DEBOUNCE_MS)
      ∧ runPIR ⟨true, 40, false, false, 0⟩ ([50, 100].map fun t => ((true : Bool), t))
          = ⟨true, 40, false, false, 0⟩) :=
  ⟨⟨by decide, pir_debounce_contract.1 ⟨false, 0, true, false, 0⟩ true 40 (by decide)⟩,
   ⟨by decide, pir_debounce_contract.2.1 ⟨true, 40, false, false, 0⟩ true 200 (by decide)⟩,
   ⟨by decide, pir_debounce_contract.2.2.1 ⟨true, 40, true, true, 0⟩ true [200, 300] (by decide)⟩,
   ⟨by decide, by decide,
     pir_debounce_contract.2.2.2 ⟨true, 40, false, false, 0⟩ true [50, 100] (by decide)
       (by decide)⟩⟩

/-- The motion-handling state of `readSensors()` in the ino variant. -/
structure InoMotionState where
  lastMotionState : Bool
  motionDetected : Bool
  lastMotionChangeTime : Nat
  motionLedOn : Bool
  motionLedOffTime : Nat
  motionLedPin : Bool
deriving DecidableEq

/-- The motion part of `readSensors()` from the ino variant: the motion LED
pin follows the raw sample immediately, and `motionDetected` flips on every
raw edge with no stability window (`PIR_DEBOUNCE_MS` is defined in that file
but never used here). -/
def readSensorsMotion (s : InoMotionState) (currentMotion : Bool) (now : Nat) :
    InoMotionState :=
  if currentMotion = true then
    let t : InoMotionState := { s with motionLedPin := true }
    if t.lastMotionState = false then
      { t with motionDetected := true, lastMotionState := true,
               lastMotionChangeTime := now, motionLedOn := true,
               motionLedOffTime := now + 5000 }
    else t
  else
    let t : InoMotionState := { s with motionLedPin := false }
    if t.lastMotionState = true then
      { t with motionDetected := false, lastMotionState := false,
               lastMotionChangeTime := now }
    else t

/-- C6 counterexample: in the ino variant's `readSensors()`, a single raw
sample that differs from the previous one flips the debounced motion state in
the very same call — a run of identical raw values of zero duration, far
shorter than any positive stability window — refuting the claim that the
stable state never changes during a run shorter than the window (and that
changes restart a timer that must then elapse). -/
theorem ino_motion_changes_without_window :
    (⟨false, false, 0, false, 0, false⟩ : InoMotionState).motionDetected = false
    ∧ (true : Bool) ≠ (⟨false, false, 0, false, 0, false⟩ : InoMotionState).lastMotionState
    ∧ (readSensorsMotion ⟨false, false, 0, false, 0, false⟩ true 5).motionDetected = true := by
  decide

/-- The calls a `loop()` body can make, named after the source functions
(`sensorRead` covers the ino `readSensors()` and the part000 inline LDR read
plus `readPIR()`; `switchCheck` covers `checkManualSwitches()` /
`checkSwitches()`; `remotePull` is `checkFirebaseControls()`; `telemetryPush`
is `updateFirebaseSensors()`; `autoPolicy` is `processAutomaticControls()`). -/
inductive LoopCall where
  | wifiCheck
  | notifMinuteReset
  | sensorRead
  | dhtRead
  | motionLedOff
  | switchCheck
  | remotePull
  | telemetryPush
  | autoPolicy
  | idleDelay
deriving DecidableEq, BEq

/-- The body of `loop()` in the ino variant, in source order (each timed
block listed at the position of its call site). -/
def inoLoopBody : List LoopCall :=
  [LoopCall.wifiCheck, LoopCall.notifMinuteReset, LoopCall.sensorRead,
   LoopCall.dhtRead, LoopCall.motionLedOff, LoopCall.switchCheck,
   LoopCall.remotePull, LoopCall.telemetryPush, LoopCall.autoPolicy]

/-- The body of `loop()` in the part000 variant, in source order. -/
def part000LoopBody : List LoopCall :=
  [LoopCall.sensorRead, LoopCall.dhtRead, LoopCall.motionLedOff,
   LoopCall.switchCheck, LoopCall.remotePull, LoopCall.autoPolicy,
   LoopCall.telemetryPush, LoopCall.idleDelay]

/-- The steps of one branch of `processAutomaticControls()` (both variants):
evaluate the trigger condition, mutate the desired state, apply it to the
pins via the update function, echo the control state to the datastore, and
emit the notification. -/
inductive PolicyStep where
  | evalCondition
  | setDesiredState
  | applyOutputs
  | echoControls
  | emitEvent
deriving DecidableEq, BEq

def policyBranchBody : List PolicyStep :=
  [PolicyStep.evalCondition, PolicyStep.setDesiredState, PolicyStep.applyOutputs,
   PolicyStep.echoControls, PolicyStep.emitEvent]

/-- C9 (amended): within one tick, input/debounce updates (`sensorRead`,
`switchCheck`) precede the automatic policy pass in both loop variants, and
inside each policy branch the desired-state decision precedes the actuator
application; the policy pass precedes the sensor-telemetry push in the
part000 loop, whereas in the ino variant the telemetry push precedes the
policy pass (see the counterexample), so actuator-before-telemetry holds only
for the part000 loop. -/
theorem loop_phase_ordering :
    (List.indexOf LoopCall.sensorRead inoLoopBody
        < List.indexOf LoopCall.autoPolicy inoLoopBody
      ∧ List.indexOf LoopCall.switchCheck inoLoopBody
        < List.indexOf LoopCall.autoPolicy inoLoopBody)
    ∧ (List.indexOf LoopCall.sensorRead part000LoopBody
        < List.indexOf LoopCall.autoPolicy part000LoopBody
      ∧ List.indexOf LoopCall.switchCheck part000LoopBody
        < List.indexOf LoopCall.autoPolicy part000LoopBody
      ∧ List.indexOf LoopCall.autoPolicy part000LoopBody
        < List.indexOf LoopCall.telemetryPush part000LoopBody)
    ∧ List.indexOf PolicyStep.setDesiredState policyBranchBody
        < List.indexOf PolicyStep.applyOutputs policyBranchBody := by
  decide

/-- C9 counterexample: in the ino variant's `loop()`, the sensor-telemetry
push (`updateFirebaseSensors()`) is called BEFORE `processAutomaticControls()`
in the same iteration, refuting the claim that actuator application precedes
the outward telemetry push in every iteration of the control loop. -/
theorem ino_loop_telemetry_before_policy :
    List.indexOf LoopCall.telemetryPush inoLoopBody
        < List.indexOf LoopCall.autoPolicy inoLoopBody
    ∧ ¬(List.indexOf LoopCall.autoPolicy inoLoopBody
        < List.indexOf LoopCall.telemetryPush inoLoopBody) := by
  decide

end HomeAutomation
